import Mathlib

/-!
Formal model of the ingestion pipeline implemented in
`1_ingestion/ingest_pipeline.py` of the Academic-Researching repository.

The pipeline takes PDF documents from a source directory, converts each one
with an external GROBID service to TEI/XML, normalizes the XML to markdown,
enriches the markdown through an LLM endpoint, chunks the enriched text and
persists a JSON record, quarantining the document on any stage failure.

Modelling conventions:
* Directories are modelled per file stem.  A real directory holds at most one
  file per name, so presence is a `Bool` (or an `Option` carrying content);
  `shutil.move` onto an existing destination overwrites it.
* External effects (the GROBID HTTP call, the LLM call, the text splitter,
  the JSON dump) are oracles supplied per document in a `DocEnv`; everything
  the script itself computes is modelled directly.
* Local file reads/writes and the `shutil.move` into quarantine are assumed
  to succeed (disk-level failures are not modelled).
-/

namespace Ingest

/-- ASCII fragment of the Python regex class `\s` used by `re.sub(r'\s+', ' ', ...)`. -/
def isPyWs (c : Char) : Bool :=
  c = ' ' || c = '\t' || c = '\n' || c = '\r' || c = '\x0b' || c = '\x0c'

/-- One pass of `re.sub(r'\s+', ' ', text)`: every maximal whitespace run
becomes a single space.  The `Bool` records whether the previous character
was part of a whitespace run. -/
def collapseWs : List Char → Bool → List Char
  | [], _ => []
  | c :: cs, prevWs =>
    if isPyWs c then
      if prevWs then collapseWs cs true else ' ' :: collapseWs cs true
    else c :: collapseWs cs false

/-- `str.strip()` after the collapse: only plain spaces can remain at the ends. -/
def stripSpaces (l : List Char) : List Char :=
  ((l.dropWhile (fun c => c = ' ')).reverse.dropWhile (fun c => c = ' ')).reverse

/-- `clean_text` from `ingest_pipeline.py`: collapse whitespace runs to a
single space, then strip leading/trailing whitespace. -/
def clean_text (s : String) : String :=
  String.mk (stripSpaces (collapseWs s.data false))

/-- Loop body of `table_to_markdown`: append the pipe-delimited row line and,
if the header separator has not been emitted yet, the separator row. -/
def tableStep (acc : List String × Bool) (row : List String) : List String × Bool :=
  let cells := row.map clean_text
  let withRow := acc.1 ++ ["| " ++ String.intercalate " | " cells ++ " |"]
  if acc.2 then (withRow, true)
  else (withRow ++ ["|" ++ String.intercalate "|" (List.replicate cells.length "---") ++ "|"], true)

/-- The list of lines accumulated by the `table_to_markdown` loop. -/
def tableParts (rows : List (List String)) : List String :=
  (rows.foldl tableStep ([], false)).1

/-- `table_to_markdown` from `ingest_pipeline.py`, on the list of rows of a
`<table>` element (each row a list of cell texts). -/
def table_to_markdown (rows : List (List String)) : String :=
  String.intercalate "\n" (tableParts rows) ++ "\n"

/-- A `<figure>` element as the converter inspects it: an optional contained
`<table>` (its rows) and an optional `<figDesc>` caption. -/
structure Figure where
  table : Option (List (List String))
  figDesc : Option String
deriving Repr, DecidableEq

/-- The markdown parts appended for one `<figure>` element
(`convert_xml_to_md`, figure branch): the table rendering when a table is
found, then the image-description placeholder when a `figDesc` is found. -/
def figureParts (fig : Figure) : List String :=
  (match fig.table with
   | some rows => [table_to_markdown rows]
   | none => [])
  ++
  (match fig.figDesc with
   | some d => ["[Image: " ++ clean_text d ++ "]\n"]
   | none => [])

/-- A `<head>` element: its text and its optional `n` numbering attribute. -/
structure Head where
  text : String
  n : Option String
deriving Repr, DecidableEq

/-- A direct child of a top-level `<div>` that the converter walks. -/
inductive DivElem where
  | p (text : String)
  | formula (text : String)
  | figure (fig : Figure)
deriving Repr, DecidableEq

/-- A top-level `<div>` of the TEI body. -/
structure BodyDiv where
  head : Option Head
  elems : List DivElem
deriving Repr, DecidableEq

/-- Number of `'.'` characters, as Python `str.count('.')`. -/
def countDots (s : String) : Nat := s.data.countP (fun c => c = '.')

/-- `head.get('n', '1').count('.') + 2` from `convert_xml_to_md`. -/
def headingLevel (n : Option String) : Nat := countDots (n.getD "1") + 2

/-- The markdown part emitted for a section heading. -/
def headingPart (h : Head) : String :=
  "\n" ++ String.mk (List.replicate (headingLevel h.n) '#') ++ " " ++ clean_text h.text ++ "\n"

/-- Markdown parts appended for one element inside a `<div>`. -/
def elemParts : DivElem → List String
  | .p text => [clean_text text ++ "\n"]
  | .formula text => ["$$\n" ++ clean_text text ++ "\n$$\n"]
  | .figure fig => figureParts fig

/-- Markdown parts appended for one top-level `<div>`. -/
def divParts (d : BodyDiv) : List String :=
  (match d.head with
   | some h => [headingPart h]
   | none => [])
  ++ d.elems.flatMap elemParts

/-- A parsed TEI document as `convert_xml_to_md` walks it (bibliographic
`<ref>` markers and footnotes already decomposed, as the code removes them
before any extraction). -/
structure TeiDoc where
  title : Option String
  abstract : Option (List String)
  body : List BodyDiv
deriving Repr

/-- The full `markdown_parts` list that `convert_xml_to_md` joins and writes. -/
def convert_xml_to_md_parts (doc : TeiDoc) : List String :=
  (match doc.title with
   | some t => ["# " ++ clean_text t ++ "\n"]
   | none => [])
  ++ (match doc.abstract with
      | some paras => "## Abstract\n" :: paras.map (fun p => clean_text p ++ "\n")
      | none => [])
  ++ doc.body.flatMap divParts

/-- The heading depth visible in an emitted markdown part: the run of `'#'`
characters after the leading newline. -/
def leadingHashes (s : String) : Nat :=
  ((s.data.dropWhile (fun c => c = '\n')).takeWhile (fun c => c = '#')).length

/-- The exact placeholder line emitted for a figure caption. -/
def placeholderLine (d : String) : String := "[Image: " ++ clean_text d ++ "]\n"

/-- The figure branch emitted a bracketed image-description placeholder. -/
def emitsPlaceholder (fig : Figure) : Prop :=
  ∃ d, fig.figDesc = some d ∧ placeholderLine d ∈ figureParts fig

/-! ## Orchestrator state model -/

/-- Pointwise update of a directory map at one stem. -/
def upd {α : Type} (f : String → α) (a : String) (v : α) : String → α :=
  fun b => if b = a then v else f b

/-- `GROBID_TIMEOUT` from `1_ingestion/config.py`. -/
def GROBID_TIMEOUT : Nat := 120

/-- Outcome of one HTTP request made with `requests`: a response with a
status code and body, a timeout, or a network-level error. -/
inductive HttpResult where
  | resp (status : Nat) (body : String)
  | timeout
  | netError (msg : String)
deriving Repr, DecidableEq

/-- Outcome of `convert_xml_to_md`'s parse-and-extract work on one document:
the markdown text it would write, or the message of the exception it caught. -/
inductive ConvertOutcome where
  | ok (text : String)
  | exn (msg : String)
deriving Repr, DecidableEq

/-- External behaviour observed while processing one document:
the GROBID conversion response, the normalizer outcome, the parsed LLM
content (`None` models a transport failure or a non-JSON body; the endpoint
is called with `response_format: json_object`, so a parsed body is a
key/value object), the chunk list returned by `chunk_text_with_txtai`
(an exception inside it already yields `[]`), whether the `json.dump` in
`save_processed_data` succeeds, and the wall-clock timestamp. -/
structure DocEnv where
  grobid : HttpResult
  convert : ConvertOutcome
  llm : Option (List (String × String))
  chunks : List String
  saveOk : Bool
  now : Nat
deriving Repr, DecidableEq

/-- The `final_output` JSON record written by `main`. -/
structure Record where
  source_filename : String
  document_summary : String
  key_entities : String
  chunks : List String
  processed_timestamp : Nat
deriving Repr, DecidableEq

/-- The filesystem as the pipeline sees it, per document stem: the source
directory (a listing, duplicate-free for a real directory), the XML and
markdown intermediate directories, the processed-records directory, the
quarantine directory (`some reason` = the PDF is present and `reason` was
logged for it), and the trace of GROBID conversion requests issued. -/
structure FsState where
  source : List String
  xml : String → Bool
  md : String → Bool
  processed : String → Option Record
  quarantine : String → Option String
  convReqs : List String

/-- Create or delete the XML artifact marker for a stem. -/
def setXml (st : FsState) (stem : String) (v : Bool) : FsState :=
  { st with xml := upd st.xml stem v }

/-- Create or delete the markdown artifact marker for a stem. -/
def setMd (st : FsState) (stem : String) (v : Bool) : FsState :=
  { st with md := upd st.md stem v }

/-- Write or remove the processed record for a stem. -/
def setProcessed (st : FsState) (stem : String) (v : Option Record) : FsState :=
  { st with processed := upd st.processed stem v }

/-- Put or remove a quarantine entry for a stem. -/
def setQuarantine (st : FsState) (stem : String) (v : Option String) : FsState :=
  { st with quarantine := upd st.quarantine stem v }

/-- Record that a GROBID conversion request was issued for a stem. -/
def pushReq (st : FsState) (stem : String) : FsState :=
  { st with convReqs := stem :: st.convReqs }

/-- Remove a stem from the source-directory listing. -/
def eraseSource (st : FsState) (stem : String) : FsState :=
  { st with source := st.source.erase stem }

/-- `quarantine_file`: move the PDF from the source directory into the
quarantine directory, logging the reason. -/
def quarantine_file (st : FsState) (stem reason : String) : FsState :=
  setQuarantine (eraseSource st stem) stem (some reason)

/-- `check_grobid_server`: `True` exactly on an HTTP 200 answer to
`/api/isalive`; any other status or a request exception yields `False`. -/
def check_grobid_server : HttpResult → Bool
  | .resp status _ => status == 200
  | .timeout => false
  | .netError _ => false

/-- `process_pdf_with_grobid`: issue the conversion request; on HTTP 200
write the XML artifact and return `True`; on any non-200 status, timeout or
network error, quarantine the PDF with the corresponding reason and return
`False` (no XML artifact is written on failure). -/
def process_pdf_with_grobid (env : DocEnv) (st : FsState) (stem : String) : Bool × FsState :=
  let st1 : FsState := pushReq st stem
  match env.grobid with
  | .resp status body =>
    if status == 200 then
      (true, setXml st1 stem true)
    else
      (false, quarantine_file st1 stem
        ("GROBID returned status " ++ toString status ++ ". Response: " ++
          body.take 200 ++ "..."))
  | .timeout =>
    (false, quarantine_file st1 stem
      ("Request timed out after " ++ toString GROBID_TIMEOUT ++ " seconds."))
  | .netError msg =>
    (false, quarantine_file st1 stem ("A network error occurred: " ++ msg))

/-- `convert_xml_to_md` as a state step: on success write the markdown
artifact; on an exception quarantine the PDF and delete the (possibly
partially written) markdown artifact. -/
def convert_xml_to_md (outcome : ConvertOutcome) (st : FsState) (stem : String) : Bool × FsState :=
  match outcome with
  | .ok _text => (true, setMd st stem true)
  | .exn msg =>
    (false, setMd (quarantine_file st stem ("Failed to convert XML to Markdown: " ++ msg)) stem false)

/-- The three keys `validate_and_enrich_with_llm` requires. -/
def requiredKeys : List String := ["cleaned_text", "summary", "entities"]

/-- `not llm_response or not all(k in llm_response for k in [...])`, negated:
the response is truthy (a non-empty object) and every required key is a key
of it. -/
def llmResponseValid (r : Option (List (String × String))) : Bool :=
  match r with
  | none => false
  | some obj => !obj.isEmpty && requiredKeys.all (fun k => obj.any (fun kv => kv.1 == k))

/-- `validate_and_enrich_with_llm`: return the parsed response when it is
valid; otherwise quarantine the PDF and return nothing. -/
def validate_and_enrich_with_llm (r : Option (List (String × String))) (st : FsState)
    (stem : String) : Option (List (String × String)) × FsState :=
  if llmResponseValid r then (r, st)
  else (none, quarantine_file st stem "LLM response was invalid or missing required keys.")

/-- Python `obj[k]` on the modelled object (validated keys are present). -/
def jget (obj : List (String × String)) (k : String) : String :=
  ((obj.find? (fun kv => kv.1 == k)).map (fun kv => kv.2)).getD ""

/-- `save_processed_data`: write the record; any exception is caught and
only logged, leaving the processed directory unchanged. -/
def save_processed_data (saveOk : Bool) (st : FsState) (stem : String) (data : Record) : FsState :=
  if saveOk then setProcessed st stem (some data) else st

/-- The body of `main`'s per-document loop. -/
def processDoc (force : Bool) (env : DocEnv) (st : FsState) (stem : String) : FsState :=
  if st.md stem && !force then st
  else
    let r1 := process_pdf_with_grobid env st stem
    if r1.1 = false then r1.2
    else
      let r2 := convert_xml_to_md env.convert r1.2 stem
      if r2.1 = false then setXml r2.2 stem false
      else
        let r3 := validate_and_enrich_with_llm env.llm r2.2 stem
        match r3.1 with
        | none => setMd (setXml r3.2 stem false) stem false
        | some obj =>
          let chunks := env.chunks
          if chunks.isEmpty then
            setMd (setXml (quarantine_file r3.2 stem "Text chunking failed.") stem false)
              stem false
          else
            let finalOutput : Record :=
              { source_filename := stem ++ ".pdf"
                document_summary := jget obj "summary"
                key_entities := jget obj "entities"
                chunks := chunks
                processed_timestamp := env.now }
            let st5 := save_processed_data env.saveOk r3.2 stem finalOutput
            setMd (setXml (eraseSource st5 stem) stem false) stem false

/-- The per-document loop of `main`, over the snapshot of the source listing. -/
def runDocs (force : Bool) (envs : String → DocEnv) (l : List String) (st : FsState) :
    FsState :=
  l.foldl (fun s stem => processDoc force (envs stem) s stem) st

/-- `main`: halt the whole batch unless the liveness probe succeeds, then
run every document of the source-directory snapshot through the pipeline. -/
def main (live : HttpResult) (force : Bool) (envs : String → DocEnv) (st : FsState) : FsState :=
  if check_grobid_server live then runDocs force envs st.source st else st

/-! ## Stage-outcome predicates -/

/-- The GROBID conversion call returned HTTP 200. -/
def grobidOk (env : DocEnv) : Bool :=
  match env.grobid with
  | .resp status _ => status == 200
  | _ => false

/-- The XML-to-markdown conversion raised no exception. -/
def convertOk (env : DocEnv) : Bool :=
  match env.convert with
  | .ok _ => true
  | .exn _ => false

/-- Some stage before persistence failed for this document. -/
def stageFailed (env : DocEnv) : Bool :=
  !grobidOk env || !convertOk env || !llmResponseValid env.llm || env.chunks.isEmpty

/-- Conversion, normalization, enrichment and chunking all succeeded. -/
def pipelineSucceeds (env : DocEnv) : Bool :=
  grobidOk env && convertOk env && llmResponseValid env.llm && !env.chunks.isEmpty

/-- The quarantine reason produced by a failing GROBID call. -/
def grobidFailReason : HttpResult → String
  | .resp status body =>
      "GROBID returned status " ++ toString status ++ ". Response: " ++ body.take 200 ++ "..."
  | .timeout => "Request timed out after " ++ toString GROBID_TIMEOUT ++ " seconds."
  | .netError msg => "A network error occurred: " ++ msg

/-- The quarantine reason logged for the first failing stage. -/
def failReason (env : DocEnv) : String :=
  if grobidOk env = false then grobidFailReason env.grobid
  else if convertOk env = false then
    match env.convert with
    | .exn msg => "Failed to convert XML to Markdown: " ++ msg
    | .ok _ => ""
  else if llmResponseValid env.llm = false then
    "LLM response was invalid or missing required keys."
  else "Text chunking failed."

/-- Everything the pipeline can have done to one document stem: its
multiplicity in the source listing, the presence of its two intermediate
artifacts, its processed record, its quarantine entry, and how many
conversion requests were issued for it. -/
structure Obs where
  srcCount : Nat
  xmlB : Bool
  mdB : Bool
  processedRec : Option Record
  quarantined : Option String
  reqCount : Nat
deriving Repr, DecidableEq

/-- Observations of a state at one stem. -/
def obs (st : FsState) (t : String) : Obs :=
  ⟨st.source.count t, st.xml t, st.md t, st.processed t, st.quarantine t, st.convReqs.count t⟩

/-! ## Basic lemmas -/

theorem upd_self {α : Type} (f : String → α) (a : String) (v : α) : upd f a v a = v := by
  simp [upd]

theorem upd_ne {α : Type} (f : String → α) {a b : String} (h : b ≠ a) (v : α) :
    upd f a v b = f b := by
  simp [upd, h]

theorem obs_setXml {d t : String} (h : t ≠ d) :
    ∀ (st : FsState) (v : Bool), obs (setXml st d v) t = obs st t := by
  intro st v
  simp [obs, setXml, upd, h]

theorem obs_setMd {d t : String} (h : t ≠ d) :
    ∀ (st : FsState) (v : Bool), obs (setMd st d v) t = obs st t := by
  intro st v
  simp [obs, setMd, upd, h]

theorem obs_setProcessed {d t : String} (h : t ≠ d) :
    ∀ (st : FsState) (v : Option Record), obs (setProcessed st d v) t = obs st t := by
  intro st v
  simp [obs, setProcessed, upd, h]

theorem obs_setQuarantine {d t : String} (h : t ≠ d) :
    ∀ (st : FsState) (v : Option String), obs (setQuarantine st d v) t = obs st t := by
  intro st v
  simp [obs, setQuarantine, upd, h]

theorem obs_pushReq {d t : String} (h : t ≠ d) :
    ∀ st : FsState, obs (pushReq st d) t = obs st t := by
  intro st
  simp [obs, pushReq, List.count_cons_of_ne h]

theorem obs_eraseSource {d t : String} (h : t ≠ d) :
    ∀ st : FsState, obs (eraseSource st d) t = obs st t := by
  intro st
  simp [obs, eraseSource, List.count_erase_of_ne h]

theorem obs_quarantine_file {d t : String} (h : t ≠ d) :
    ∀ (st : FsState) (reason : String), obs (quarantine_file st d reason) t = obs st t := by
  intro st reason
  simp [quarantine_file, obs_setQuarantine h, obs_eraseSource h]

theorem obs_grobid_frame {d t : String} (h : t ≠ d) (env : DocEnv) (st : FsState) :
    obs (process_pdf_with_grobid env st d).2 t = obs st t := by
  cases hg : env.grobid
  case resp status body =>
    by_cases hs : (status == 200) = true <;>
      simp [process_pdf_with_grobid, hg, hs, obs_setXml h, obs_pushReq h,
        obs_quarantine_file h]
  case timeout =>
    simp [process_pdf_with_grobid, hg, obs_pushReq h, obs_quarantine_file h]
  case netError msg =>
    simp [process_pdf_with_grobid, hg, obs_pushReq h, obs_quarantine_file h]

theorem obs_convert_frame {d t : String} (h : t ≠ d) (c : ConvertOutcome) (st : FsState) :
    obs (convert_xml_to_md c st d).2 t = obs st t := by
  cases c <;> simp [convert_xml_to_md, obs_setMd h, obs_quarantine_file h]

theorem obs_validate_frame {d t : String} (h : t ≠ d)
    (r : Option (List (String × String))) (st : FsState) :
    obs (validate_and_enrich_with_llm r st d).2 t = obs st t := by
  by_cases hv : llmResponseValid r = true <;>
    simp [validate_and_enrich_with_llm, hv, obs_quarantine_file h]

theorem obs_save_frame {d t : String} (h : t ≠ d) (saveOk : Bool) (st : FsState)
    (data : Record) : obs (save_processed_data saveOk st d data) t = obs st t := by
  cases saveOk <;> simp [save_processed_data, obs_setProcessed h]

/-- Processing one document never changes what can be observed about a
different stem. -/
theorem processDoc_frame (force : Bool) (env : DocEnv) (st : FsState) {d t : String}
    (hne : d ≠ t) : obs (processDoc force env st d) t = obs st t := by
  have h1 : t ≠ d := hne.symm
  simp only [processDoc]
  repeat' split
  all_goals
    simp only [obs_setMd h1, obs_setXml h1, obs_eraseSource h1, obs_quarantine_file h1,
      obs_save_frame h1, obs_validate_frame h1, obs_convert_frame h1, obs_grobid_frame h1]

/-- The record `main` assembles for a successfully processed document. -/
def recordOf (env : DocEnv) (stem : String) : Record :=
  { source_filename := stem ++ ".pdf"
    document_summary := jget (env.llm.getD []) "summary"
    key_entities := jget (env.llm.getD []) "entities"
    chunks := env.chunks
    processed_timestamp := env.now }

/-- Outcome of a document that fails at some stage before persistence, on a
state with no stale artifacts for it: the source copy is gone, the
quarantine directory holds it with the reason of the first failing stage,
no record is written and no intermediate artifact remains. -/
theorem processDoc_fail (force : Bool) (env : DocEnv) (st : FsState) (t : String)
    (hmd : st.md t = false) (hxml : st.xml t = false)
    (hcnt : st.source.count t ≤ 1) (hfail : stageFailed env = true) :
    obs (processDoc force env st t) t =
      ⟨0, false, false, st.processed t, some (failReason env), st.convReqs.count t + 1⟩ := by
  obtain ⟨g, c, lr, ch, sOk, now⟩ := env
  have hguard : (st.md t && !force) = false := by simp [hmd]
  cases g with
  | timeout =>
    simp [processDoc, hguard, process_pdf_with_grobid, quarantine_file, setQuarantine,
      eraseSource, pushReq, upd, obs, failReason, grobidOk, grobidFailReason,
      List.count_erase_self, hxml, hmd]
    omega
  | netError msg =>
    simp [processDoc, hguard, process_pdf_with_grobid, quarantine_file, setQuarantine,
      eraseSource, pushReq, upd, obs, failReason, grobidOk, grobidFailReason,
      List.count_erase_self, hxml, hmd]
    omega
  | resp status body =>
    by_cases hs : (status == 200) = true
    · cases c with
      | exn msg =>
        simp [processDoc, hguard, process_pdf_with_grobid, convert_xml_to_md,
          quarantine_file, setQuarantine, setXml, setMd, eraseSource, pushReq, upd, obs,
          failReason, grobidOk, convertOk, hs, List.count_erase_self]
        omega
      | ok text =>
        by_cases hv : llmResponseValid lr = true
        · cases lr with
          | none => simp [llmResponseValid] at hv
          | some obj =>
            have hch : ch.isEmpty = true := by
              simpa [stageFailed, grobidOk, convertOk, hs, hv] using hfail
            simp [processDoc, hguard, process_pdf_with_grobid, convert_xml_to_md,
              validate_and_enrich_with_llm, hv, hch, quarantine_file, setQuarantine,
              setXml, setMd, eraseSource, pushReq, upd, obs, failReason, grobidOk,
              convertOk, hs, List.count_erase_self]
            omega
        · simp [processDoc, hguard, process_pdf_with_grobid, convert_xml_to_md,
            validate_and_enrich_with_llm, hv, quarantine_file, setQuarantine, setXml,
            setMd, eraseSource, pushReq, upd, obs, failReason, grobidOk, convertOk, hs,
            List.count_erase_self]
          omega
    · simp [processDoc, hguard, process_pdf_with_grobid, quarantine_file, setQuarantine,
        eraseSource, pushReq, upd, obs, failReason, grobidOk, grobidFailReason, hs,
        List.count_erase_self, hxml, hmd]
      omega

/-- Outcome of a document for which conversion, normalization, enrichment
and chunking all succeed: the source copy is deleted, both intermediate
artifacts are deleted, the quarantine entry is untouched, and the record is
written exactly when the `json.dump` succeeds. -/
theorem processDoc_success (force : Bool) (env : DocEnv) (st : FsState) (t : String)
    (hguard : (st.md t && !force) = false)
    (hcnt : st.source.count t ≤ 1) (hsucc : pipelineSucceeds env = true) :
    obs (processDoc force env st t) t =
      ⟨0, false, false,
        (if env.saveOk then some (recordOf env t) else st.processed t),
        st.quarantine t, st.convReqs.count t + 1⟩ := by
  obtain ⟨g, c, lr, ch, sOk, now⟩ := env
  simp only [pipelineSucceeds, Bool.and_eq_true] at hsucc
  obtain ⟨⟨⟨hgk, hck⟩, hvk⟩, hchk⟩ := hsucc
  cases g with
  | timeout => simp [grobidOk] at hgk
  | netError msg => simp [grobidOk] at hgk
  | resp status body =>
    have hs : (status == 200) = true := by simpa [grobidOk] using hgk
    cases c with
    | exn msg => simp [convertOk] at hck
    | ok text =>
      cases lr with
      | none => simp [llmResponseValid] at hvk
      | some obj =>
        have hch : ch.isEmpty = false := by simpa using hchk
        cases sOk with
        | false =>
          simp [processDoc, hguard, process_pdf_with_grobid, convert_xml_to_md,
            validate_and_enrich_with_llm, hvk, hch, save_processed_data, setXml, setMd,
            setProcessed, eraseSource, pushReq, upd, obs, hs, recordOf, jget,
            List.count_erase_self]
          omega
        | true =>
          simp [processDoc, hguard, process_pdf_with_grobid, convert_xml_to_md,
            validate_and_enrich_with_llm, hvk, hch, save_processed_data, setXml, setMd,
            setProcessed, eraseSource, pushReq, upd, obs, hs, recordOf, jget,
            List.count_erase_self]
          omega

/-- A document whose markdown artifact already exists is skipped entirely
when the force flag is unset. -/
theorem processDoc_skip (force : Bool) (env : DocEnv) (st : FsState) (t : String)
    (h : (st.md t && !force) = true) : processDoc force env st t = st := by
  simp [processDoc, h]

/-- Running the loop over documents other than `t` never changes what can be
observed about `t`. -/
theorem runDocs_frame (force : Bool) (envs : String → DocEnv) {t : String} :
    ∀ (l : List String) (st : FsState), t ∉ l →
      obs (runDocs force envs l st) t = obs st t := by
  intro l
  induction l with
  | nil => intro st _; rfl
  | cons d l ih =>
    intro st h
    have hd : d ≠ t := fun e => h (e ▸ List.mem_cons_self d l)
    have ht : t ∉ l := fun m => h (List.mem_cons_of_mem d m)
    calc obs (runDocs force envs (d :: l) st) t
        = obs (runDocs force envs l (processDoc force (envs d) st d)) t := rfl
      _ = obs (processDoc force (envs d) st d) t := ih _ ht
      _ = obs st t := processDoc_frame force (envs d) st hd

/-- Loop-level failure outcome: a failing document of a duplicate-free
batch, with no stale artifacts, ends quarantined with its stage reason, and
removed everywhere else. -/
theorem runDocs_fail (force : Bool) (envs : String → DocEnv) {t : String} :
    ∀ (l : List String) (st : FsState), l.Nodup → t ∈ l →
      st.md t = false → st.xml t = false → st.source.count t ≤ 1 →
      stageFailed (envs t) = true →
      obs (runDocs force envs l st) t =
        ⟨0, false, false, st.processed t, some (failReason (envs t)),
          st.convReqs.count t + 1⟩ := by
  intro l
  induction l with
  | nil => intro st _ hm; cases hm
  | cons d l ih =>
    intro st hnd hm hmd hxml hcnt hfail
    rcases List.mem_cons.mp hm with rfl | hm2
    · have htl : t ∉ l := (List.nodup_cons.mp hnd).1
      calc obs (runDocs force envs (t :: l) st) t
          = obs (runDocs force envs l (processDoc force (envs t) st t)) t := rfl
        _ = obs (processDoc force (envs t) st t) t := runDocs_frame force envs l _ htl
        _ = _ := processDoc_fail force (envs t) st t hmd hxml hcnt hfail
    · have hd : d ≠ t := by
        rintro rfl
        exact (List.nodup_cons.mp hnd).1 hm2
      have e : obs (processDoc force (envs d) st d) t = obs st t :=
        processDoc_frame force (envs d) st hd
      have emd : (processDoc force (envs d) st d).md t = st.md t := congrArg Obs.mdB e
      have exml : (processDoc force (envs d) st d).xml t = st.xml t := congrArg Obs.xmlB e
      have ecnt : (processDoc force (envs d) st d).source.count t = st.source.count t :=
        congrArg Obs.srcCount e
      have eproc : (processDoc force (envs d) st d).processed t = st.processed t :=
        congrArg Obs.processedRec e
      have ereq : (processDoc force (envs d) st d).convReqs.count t = st.convReqs.count t :=
        congrArg Obs.reqCount e
      have hrec := ih (processDoc force (envs d) st d) (List.nodup_cons.mp hnd).2 hm2
        (emd.trans hmd) (exml.trans hxml) (ecnt.le.trans hcnt) hfail
      calc obs (runDocs force envs (d :: l) st) t
          = obs (runDocs force envs l (processDoc force (envs d) st d)) t := rfl
        _ = _ := by rw [hrec, eproc, ereq]

/-- Loop-level success outcome: a fully succeeding document of a
duplicate-free batch is removed from the source directory, leaves no
intermediate artifacts, keeps its quarantine entry untouched, and gets its
record written exactly when the `json.dump` succeeds. -/
theorem runDocs_success (force : Bool) (envs : String → DocEnv) {t : String} :
    ∀ (l : List String) (st : FsState), l.Nodup → t ∈ l →
      (st.md t && !force) = false → st.source.count t ≤ 1 →
      pipelineSucceeds (envs t) = true →
      obs (runDocs force envs l st) t =
        ⟨0, false, false,
          (if (envs t).saveOk then some (recordOf (envs t) t) else st.processed t),
          st.quarantine t, st.convReqs.count t + 1⟩ := by
  intro l
  induction l with
  | nil => intro st _ hm; cases hm
  | cons d l ih =>
    intro st hnd hm hguard hcnt hsucc
    rcases List.mem_cons.mp hm with rfl | hm2
    · have htl : t ∉ l := (List.nodup_cons.mp hnd).1
      calc obs (runDocs force envs (t :: l) st) t
          = obs (runDocs force envs l (processDoc force (envs t) st t)) t := rfl
        _ = obs (processDoc force (envs t) st t) t := runDocs_frame force envs l _ htl
        _ = _ := processDoc_success force (envs t) st t hguard hcnt hsucc
    · have hd : d ≠ t := by
        rintro rfl
        exact (List.nodup_cons.mp hnd).1 hm2
      have e : obs (processDoc force (envs d) st d) t = obs st t :=
        processDoc_frame force (envs d) st hd
      have emd : (processDoc force (envs d) st d).md t = st.md t := congrArg Obs.mdB e
      have ecnt : (processDoc force (envs d) st d).source.count t = st.source.count t :=
        congrArg Obs.srcCount e
      have eproc : (processDoc force (envs d) st d).processed t = st.processed t :=
        congrArg Obs.processedRec e
      have equar : (processDoc force (envs d) st d).quarantine t = st.quarantine t :=
        congrArg Obs.quarantined e
      have ereq : (processDoc force (envs d) st d).convReqs.count t = st.convReqs.count t :=
        congrArg Obs.reqCount e
      have hrec := ih (processDoc force (envs d) st d) (List.nodup_cons.mp hnd).2 hm2
        (by rw [emd]; exact hguard) (ecnt.le.trans hcnt) hsucc
      calc obs (runDocs force envs (d :: l) st) t
          = obs (runDocs force envs l (processDoc force (envs d) st d)) t := rfl
        _ = _ := by rw [hrec, eproc, equar, ereq]

/-- Loop-level skip: with the force flag unset, a document whose markdown
artifact exists is never touched, whatever else the batch does. -/
theorem runDocs_skip (envs : String → DocEnv) {t : String} :
    ∀ (l : List String) (st : FsState), st.md t = true →
      obs (runDocs false envs l st) t = obs st t := by
  intro l
  induction l with
  | nil => intro st _; rfl
  | cons d l ih =>
    intro st hmd
    by_cases hd : d = t
    · have hskip : processDoc false (envs d) st d = st :=
        processDoc_skip false (envs d) st d (by simp [hd, hmd])
      calc obs (runDocs false envs (d :: l) st) t
          = obs (runDocs false envs l (processDoc false (envs d) st d)) t := rfl
        _ = obs (runDocs false envs l st) t := by rw [hskip]
        _ = obs st t := ih st hmd
    · have e : obs (processDoc false (envs d) st d) t = obs st t :=
        processDoc_frame false (envs d) st hd
      have emd : (processDoc false (envs d) st d).md t = st.md t := congrArg Obs.mdB e
      exact (ih _ (emd.trans hmd)).trans e

/-! ## Concrete batch fixtures (used by witnesses and counterexamples) -/

/-- A liveness probe answered with HTTP 200. -/
def liveOK : HttpResult := .resp 200 "GROBID service is alive"

/-- A clean starting state holding a single inbound PDF. -/
def st0 : FsState :=
  { source := ["doc1"]
    xml := fun _ => false
    md := fun _ => false
    processed := fun _ => none
    quarantine := fun _ => none
    convReqs := [] }

/-- A document whose GROBID conversion answers HTTP 500. -/
def envGrobid500 : DocEnv :=
  { grobid := .resp 500 "Internal Server Error"
    convert := .ok ""
    llm := none
    chunks := []
    saveOk := true
    now := 0 }

/-- A document for which every stage succeeds. -/
def envSuccess : DocEnv :=
  { grobid := .resp 200 "<TEI/>"
    convert := .ok "# Title"
    llm := some [("cleaned_text", "body text"), ("summary", "a summary"),
                 ("entities", "entity list")]
    chunks := ["chunk one", "chunk two"]
    saveOk := true
    now := 42 }

/-- Like `envSuccess`, but the `json.dump` of the record raises. -/
def envSaveFail : DocEnv := { envSuccess with saveOk := false }

/-- A document whose chunker output is empty (all earlier stages succeed). -/
def envChunkFail : DocEnv := { envSuccess with chunks := [] }

/-- A state whose only document already has its normalized-text artifact. -/
def stMdExists : FsState := { st0 with md := fun s => s == "doc1" }

/-! ## Claim theorems -/

/-- C1: for every document that fails at any stage (conversion,
normalization, enrichment, or chunking), after the batch run completes the
source directory no longer contains that document, the quarantine directory
contains exactly one copy of it, the processed-records directory contains
no record for it, and no intermediate markup or normalized-text artifact
for it remains anywhere.  The state is assumed free of stale artifacts for
the document, as after any completed previous run. -/
theorem C1_quarantine_invariant (live : HttpResult) (force : Bool)
    (envs : String → DocEnv) (st : FsState) (t : String)
    (hlive : check_grobid_server live = true)
    (hnd : st.source.Nodup) (hmem : t ∈ st.source)
    (hmd : st.md t = false) (hxml : st.xml t = false)
    (hproc : st.processed t = none)
    (hfail : stageFailed (envs t) = true) :
    t ∉ (main live force envs st).source ∧
    ((main live force envs st).quarantine t).isSome = true ∧
    (main live force envs st).processed t = none ∧
    (main live force envs st).xml t = false ∧
    (main live force envs st).md t = false := by
  have hcnt : st.source.count t ≤ 1 := List.nodup_iff_count_le_one.mp hnd t
  have h := runDocs_fail force envs st.source st hnd hmem hmd hxml hcnt hfail
  have hm : main live force envs st = runDocs force envs st.source st := by
    simp [main, hlive]
  rw [hm]
  refine ⟨List.count_eq_zero.mp (congrArg Obs.srcCount h), ?_, ?_,
    congrArg Obs.xmlB h, congrArg Obs.mdB h⟩
  · have hq : (runDocs force envs st.source st).quarantine t =
        some (failReason (envs t)) := congrArg Obs.quarantined h
    simp [hq]
  · have hp : (runDocs force envs st.source st).processed t = st.processed t :=
      congrArg Obs.processedRec h
    exact hp.trans hproc

/-- Witness for C1 on a one-document batch whose GROBID call answers 500. -/
theorem C1_witness :
    "doc1" ∉ (main liveOK false (fun _ => envGrobid500) st0).source ∧
    ((main liveOK false (fun _ => envGrobid500) st0).quarantine "doc1").isSome = true ∧
    (main liveOK false (fun _ => envGrobid500) st0).processed "doc1" = none ∧
    (main liveOK false (fun _ => envGrobid500) st0).xml "doc1" = false ∧
    (main liveOK false (fun _ => envGrobid500) st0).md "doc1" = false :=
  C1_quarantine_invariant liveOK false (fun _ => envGrobid500) st0 "doc1"
    (by decide) (by decide) (by decide) rfl rfl rfl (by decide)

/-- C2: for every document that completes all pipeline stages successfully
(including the record write), after the run the processed-records directory
contains exactly one JSON record for it whose chunks list is non-empty, the
source directory no longer contains the document, and neither the markup
nor the normalized-text intermediate artifact remains. -/
theorem C2_success_invariant (live : HttpResult) (force : Bool)
    (envs : String → DocEnv) (st : FsState) (t : String)
    (hlive : check_grobid_server live = true)
    (hnd : st.source.Nodup) (hmem : t ∈ st.source)
    (hguard : (st.md t && !force) = false)
    (hsucc : pipelineSucceeds (envs t) = true)
    (hsave : (envs t).saveOk = true) :
    (∃ r : Record, (main live force envs st).processed t = some r ∧ r.chunks ≠ []) ∧
    t ∉ (main live force envs st).source ∧
    (main live force envs st).xml t = false ∧
    (main live force envs st).md t = false := by
  have hcnt : st.source.count t ≤ 1 := List.nodup_iff_count_le_one.mp hnd t
  have h := runDocs_success force envs st.source st hnd hmem hguard hcnt hsucc
  have hm : main live force envs st = runDocs force envs st.source st := by
    simp [main, hlive]
  rw [hm]
  have hch : (envs t).chunks.isEmpty = false := by
    have h2 := hsucc
    simp only [pipelineSucceeds, Bool.and_eq_true, Bool.not_eq_true'] at h2
    exact h2.2
  have hchunks : (envs t).chunks ≠ [] := by
    intro e
    rw [e] at hch
    simp at hch
  refine ⟨⟨recordOf (envs t) t, ?_, by simpa [recordOf] using hchunks⟩,
    List.count_eq_zero.mp (congrArg Obs.srcCount h),
    congrArg Obs.xmlB h, congrArg Obs.mdB h⟩
  have hp := congrArg Obs.processedRec h
  simpa [hsave] using hp

/-- Witness for C2 on a one-document batch where every stage succeeds. -/
theorem C2_witness :
    (∃ r : Record, (main liveOK false (fun _ => envSuccess) st0).processed "doc1" =
        some r ∧ r.chunks ≠ []) ∧
    "doc1" ∉ (main liveOK false (fun _ => envSuccess) st0).source ∧
    (main liveOK false (fun _ => envSuccess) st0).xml "doc1" = false ∧
    (main liveOK false (fun _ => envSuccess) st0).md "doc1" = false :=
  C2_success_invariant liveOK false (fun _ => envSuccess) st0 "doc1"
    (by decide) (by decide) (by decide) rfl (by decide) rfl

/-- C4: a document whose normalized-text artifact already exists is skipped
entirely when the force-reprocess flag is unset: no conversion request is
made for it, nothing is created, deleted, quarantined or recorded for it,
in whatever way the batch treats the other documents. -/
theorem C4_skip_rule (live : HttpResult) (envs : String → DocEnv) (st : FsState)
    (t : String) (hmd : st.md t = true) :
    (main live false envs st).source.count t = st.source.count t ∧
    (main live false envs st).xml t = st.xml t ∧
    (main live false envs st).md t = st.md t ∧
    (main live false envs st).processed t = st.processed t ∧
    (main live false envs st).quarantine t = st.quarantine t ∧
    (main live false envs st).convReqs.count t = st.convReqs.count t := by
  have h : obs (main live false envs st) t = obs st t := by
    by_cases hlive : check_grobid_server live = true
    · have hm : main live false envs st = runDocs false envs st.source st := by
        simp [main, hlive]
      rw [hm]
      exact runDocs_skip envs st.source st hmd
    · simp [main, hlive]
  exact ⟨congrArg Obs.srcCount h, congrArg Obs.xmlB h, congrArg Obs.mdB h,
    congrArg Obs.processedRec h, congrArg Obs.quarantined h, congrArg Obs.reqCount h⟩

/-- Witness for C4: a batch whose only document already has its markdown. -/
theorem C4_witness :
    (main liveOK false (fun _ => envSuccess) stMdExists).source.count "doc1" =
      stMdExists.source.count "doc1" ∧
    (main liveOK false (fun _ => envSuccess) stMdExists).xml "doc1" =
      stMdExists.xml "doc1" ∧
    (main liveOK false (fun _ => envSuccess) stMdExists).md "doc1" =
      stMdExists.md "doc1" ∧
    (main liveOK false (fun _ => envSuccess) stMdExists).processed "doc1" =
      stMdExists.processed "doc1" ∧
    (main liveOK false (fun _ => envSuccess) stMdExists).quarantine "doc1" =
      stMdExists.quarantine "doc1" ∧
    (main liveOK false (fun _ => envSuccess) stMdExists).convReqs.count "doc1" =
      stMdExists.convReqs.count "doc1" :=
  C4_skip_rule liveOK (fun _ => envSuccess) stMdExists "doc1" (by decide)

/-- C5: if the liveness probe fails (unreachable service or any non-200
answer), the whole batch halts before touching any document: the state is
unchanged and in particular no conversion request is issued. -/
theorem C5_fatal_precondition (live : HttpResult) (force : Bool)
    (envs : String → DocEnv) (st : FsState)
    (hlive : check_grobid_server live = false) :
    main live force envs st = st := by
  simp [main, hlive]

/-- Witness for C5 with a probe answered by HTTP 503. -/
theorem C5_witness : main (.resp 503 "unavailable") false (fun _ => envSuccess) st0 = st0 :=
  C5_fatal_precondition (.resp 503 "unavailable") false (fun _ => envSuccess) st0 (by decide)

/-- C10: `save_processed_data` swallows every write failure, so a document
whose record write fails is still deleted from the source directory together
with both intermediate artifacts, ends with no processed record on disk,
and is not quarantined. -/
theorem C10_save_failure_swallowed (live : HttpResult) (force : Bool)
    (envs : String → DocEnv) (st : FsState) (t : String)
    (hlive : check_grobid_server live = true)
    (hnd : st.source.Nodup) (hmem : t ∈ st.source)
    (hguard : (st.md t && !force) = false)
    (hq : st.quarantine t = none) (hproc : st.processed t = none)
    (hsucc : pipelineSucceeds (envs t) = true)
    (hsave : (envs t).saveOk = false) :
    t ∉ (main live force envs st).source ∧
    (main live force envs st).processed t = none ∧
    (main live force envs st).quarantine t = none ∧
    (main live force envs st).xml t = false ∧
    (main live force envs st).md t = false := by
  have hcnt : st.source.count t ≤ 1 := List.nodup_iff_count_le_one.mp hnd t
  have h := runDocs_success force envs st.source st hnd hmem hguard hcnt hsucc
  have hm : main live force envs st = runDocs force envs st.source st := by
    simp [main, hlive]
  rw [hm]
  refine ⟨List.count_eq_zero.mp (congrArg Obs.srcCount h), ?_, ?_,
    congrArg Obs.xmlB h, congrArg Obs.mdB h⟩
  · have hp := congrArg Obs.processedRec h
    simp only [hsave] at hp
    simpa [hproc] using hp
  · have hqr := congrArg Obs.quarantined h
    exact hqr.trans hq

/-- Witness for C10 on a one-document batch whose record write fails. -/
theorem C10_witness :
    "doc1" ∉ (main liveOK false (fun _ => envSaveFail) st0).source ∧
    (main liveOK false (fun _ => envSaveFail) st0).processed "doc1" = none ∧
    (main liveOK false (fun _ => envSaveFail) st0).quarantine "doc1" = none ∧
    (main liveOK false (fun _ => envSaveFail) st0).xml "doc1" = false ∧
    (main liveOK false (fun _ => envSaveFail) st0).md "doc1" = false :=
  C10_save_failure_swallowed liveOK false (fun _ => envSaveFail) st0 "doc1"
    (by decide) (by decide) (by decide) rfl rfl rfl (by decide) rfl

/-- A clean two-document starting state. -/
def st2 : FsState := { st0 with source := ["doc1", "doc2"] }

/-- Per-document behaviour: `doc1` produces no chunks, every other document
succeeds in full. -/
def envs2 : String → DocEnv := fun s => if s == "doc1" then envChunkFail else envSuccess

/-- C6 counterexample: with an empty chunker result the pipeline quarantines
the document, but the reason recorded is the code's literal
"Text chunking failed.", not "chunking failed" as the claim states. -/
theorem C6_counterexample :
    (main liveOK false (fun _ => envChunkFail) st0).quarantine "doc1" =
      some "Text chunking failed." ∧
    (main liveOK false (fun _ => envChunkFail) st0).quarantine "doc1" ≠
      some "chunking failed" := by
  decide

/-- C6 (amended): for every document whose enriched cleaned text yields an
empty chunk sequence, the orchestrator quarantines the source document with
reason "Text chunking failed.", deletes both intermediate artifacts, writes
no processed record, and continues the batch (any other fully succeeding
document of the batch still gets its record written). -/
theorem C6_chunking_failure (live : HttpResult) (force : Bool)
    (envs : String → DocEnv) (st : FsState) (t : String)
    (hlive : check_grobid_server live = true)
    (hnd : st.source.Nodup) (hmem : t ∈ st.source)
    (hmd : st.md t = false) (hxml : st.xml t = false)
    (hproc : st.processed t = none)
    (hg : grobidOk (envs t) = true) (hc : convertOk (envs t) = true)
    (hv : llmResponseValid (envs t).llm = true)
    (hch : (envs t).chunks = []) :
    (main live force envs st).quarantine t = some "Text chunking failed." ∧
    t ∉ (main live force envs st).source ∧
    (main live force envs st).processed t = none ∧
    (main live force envs st).xml t = false ∧
    (main live force envs st).md t = false ∧
    (∀ u, u ∈ st.source → u ≠ t → (st.md u && !force) = false →
      pipelineSucceeds (envs u) = true → (envs u).saveOk = true →
      (main live force envs st).processed u = some (recordOf (envs u) u)) := by
  have hcnt : st.source.count t ≤ 1 := List.nodup_iff_count_le_one.mp hnd t
  have hfail : stageFailed (envs t) = true := by
    simp [stageFailed, hch]
  have hreason : failReason (envs t) = "Text chunking failed." := by
    simp [failReason, hg, hc, hv]
  have h := runDocs_fail force envs st.source st hnd hmem hmd hxml hcnt hfail
  have hm : main live force envs st = runDocs force envs st.source st := by
    simp [main, hlive]
  rw [hm]
  refine ⟨?_, List.count_eq_zero.mp (congrArg Obs.srcCount h), ?_,
    congrArg Obs.xmlB h, congrArg Obs.mdB h, ?_⟩
  · exact (congrArg Obs.quarantined h).trans (congrArg some hreason)
  · exact (congrArg Obs.processedRec h).trans hproc
  · intro u hu hut hug husucc husave
    have hcu : st.source.count u ≤ 1 := List.nodup_iff_count_le_one.mp hnd u
    have h2 := runDocs_success force envs st.source st hnd hu hug hcu husucc
    have hp := congrArg Obs.processedRec h2
    simpa [husave] using hp

/-- Witness for C6 on a two-document batch: the chunk-failing document is
quarantined with the literal reason and the other document is still
processed to a record. -/
theorem C6_witness :
    (main liveOK false envs2 st2).quarantine "doc1" = some "Text chunking failed." ∧
    "doc1" ∉ (main liveOK false envs2 st2).source ∧
    (main liveOK false envs2 st2).processed "doc1" = none ∧
    (main liveOK false envs2 st2).xml "doc1" = false ∧
    (main liveOK false envs2 st2).md "doc1" = false ∧
    (main liveOK false envs2 st2).processed "doc2" = some (recordOf (envs2 "doc2") "doc2") := by
  have h := C6_chunking_failure liveOK false envs2 st2 "doc1" (by decide) (by decide)
    (by decide) rfl rfl rfl (by decide) (by decide) (by decide) (by decide)
  exact ⟨h.1, h.2.1, h.2.2.1, h.2.2.2.1, h.2.2.2.2.1,
    h.2.2.2.2.2 "doc2" (by decide) (by decide) (by decide) (by decide) (by decide)⟩

/-- C9 counterexample: a failing conversion attempt (HTTP 500) does move a
file, contradicting "moves or deletes no file": the source PDF is relocated
into the quarantine directory by the conversion function itself. -/
theorem C9_counterexample :
    (process_pdf_with_grobid envGrobid500 st0 "doc1").1 = false ∧
    (process_pdf_with_grobid envGrobid500 st0 "doc1").2.source = [] ∧
    st0.source = ["doc1"] ∧
    ((process_pdf_with_grobid envGrobid500 st0 "doc1").2.quarantine "doc1").isSome = true ∧
    st0.quarantine "doc1" = none := by
  decide

/-- C9 (amended): for every conversion attempt that fails (non-200 status,
request timeout, or network-level error), `process_pdf_with_grobid` returns
failure with a human-readable reason, creates no markup artifact and writes
no record — but it quarantines the failing source PDF itself, moving it out
of the source directory, rather than leaving every file in place. -/
theorem C9_conversion_failure (env : DocEnv) (st : FsState) (stem : String)
    (hfail : grobidOk env = false) :
    (process_pdf_with_grobid env st stem).1 = false ∧
    (process_pdf_with_grobid env st stem).2.xml = st.xml ∧
    (process_pdf_with_grobid env st stem).2.md = st.md ∧
    (process_pdf_with_grobid env st stem).2.processed = st.processed ∧
    (process_pdf_with_grobid env st stem).2.source = st.source.erase stem ∧
    (process_pdf_with_grobid env st stem).2.quarantine stem =
      some (grobidFailReason env.grobid) := by
  cases hg : env.grobid with
  | resp status body =>
    have hs : (status == 200) = false := by
      simpa [grobidOk, hg] using hfail
    simp [process_pdf_with_grobid, hg, hs, quarantine_file, setQuarantine, eraseSource,
      pushReq, upd, grobidFailReason]
  | timeout =>
    simp [process_pdf_with_grobid, hg, quarantine_file, setQuarantine, eraseSource,
      pushReq, upd, grobidFailReason]
  | netError msg =>
    simp [process_pdf_with_grobid, hg, quarantine_file, setQuarantine, eraseSource,
      pushReq, upd, grobidFailReason]

/-- Witness for C9 at the HTTP 500 environment. -/
theorem C9_witness :
    (process_pdf_with_grobid envGrobid500 st0 "doc1").1 = false ∧
    (process_pdf_with_grobid envGrobid500 st0 "doc1").2.xml = st0.xml ∧
    (process_pdf_with_grobid envGrobid500 st0 "doc1").2.md = st0.md ∧
    (process_pdf_with_grobid envGrobid500 st0 "doc1").2.processed = st0.processed ∧
    (process_pdf_with_grobid envGrobid500 st0 "doc1").2.source = st0.source.erase "doc1" ∧
    (process_pdf_with_grobid envGrobid500 st0 "doc1").2.quarantine "doc1" =
      some (grobidFailReason envGrobid500.grobid) :=
  C9_conversion_failure envGrobid500 st0 "doc1" (by decide)

/-- The key/value check at the heart of the enrichment validation, in
propositional form. -/
theorem llmResponseValid_iff (r : Option (List (String × String))) :
    llmResponseValid r = true ↔
      ∃ obj, r = some obj ∧ obj ≠ [] ∧ ∀ k ∈ requiredKeys, k ∈ obj.map Prod.fst := by
  cases r with
  | none => simp [llmResponseValid]
  | some obj =>
    simp only [llmResponseValid, Bool.and_eq_true, List.all_eq_true, List.any_eq_true,
      Option.some.injEq]
    constructor
    · rintro ⟨hne, hall⟩
      refine ⟨obj, rfl, by simpa [List.isEmpty_iff] using hne, ?_⟩
      intro k hk
      obtain ⟨kv, hkv, he⟩ := hall k hk
      exact List.mem_map.mpr ⟨kv, hkv, by simpa using he⟩
    · rintro ⟨obj2, hobj, hne, hall⟩
      subst hobj
      refine ⟨by simpa [List.isEmpty_iff] using hne, ?_⟩
      intro k hk
      obtain ⟨kv, hkv, he⟩ := List.mem_map.mp (hall k hk)
      exact ⟨kv, hkv, by simpa using he⟩

/-- An LLM response object carrying the three required keys plus one more. -/
def objExtra : List (String × String) :=
  [("cleaned_text", "t"), ("summary", "s"), ("entities", "e"), ("confidence", "high")]

/-- An LLM response object missing the `entities` key. -/
def objMissing : List (String × String) := [("cleaned_text", "t"), ("summary", "s")]

/-- C3 counterexample: a response object carrying an extra key passes
validation (the stage succeeds and returns the content), although its key
set is not exactly {cleaned_text, summary, entities}. -/
theorem C3_counterexample :
    llmResponseValid (some objExtra) = true ∧
    (validate_and_enrich_with_llm (some objExtra) st0 "doc1").1 = some objExtra ∧
    ¬ (∀ k, k ∈ objExtra.map Prod.fst ↔ k ∈ requiredKeys) := by
  refine ⟨by decide, by decide, ?_⟩
  intro hall
  exact absurd ((hall "confidence").mp (by decide)) (by decide)

/-- C3 (amended): the enrichment validation succeeds exactly when the parsed
response is a non-empty object containing at least the keys cleaned_text,
summary and entities (extra keys are accepted); for every response missing
any required key the stage returns no enriched content and quarantines the
document, even though the call itself succeeded. -/
theorem C3_enrichment_validation (r : Option (List (String × String)))
    (st : FsState) (stem : String) :
    (llmResponseValid r = true ↔
      ∃ obj, r = some obj ∧ obj ≠ [] ∧ ∀ k ∈ requiredKeys, k ∈ obj.map Prod.fst) ∧
    (∀ obj k, r = some obj → k ∈ requiredKeys → k ∉ obj.map Prod.fst →
      (validate_and_enrich_with_llm r st stem).1 = none ∧
      (validate_and_enrich_with_llm r st stem).2.quarantine stem =
        some "LLM response was invalid or missing required keys." ∧
      (validate_and_enrich_with_llm r st stem).2.source = st.source.erase stem) := by
  refine ⟨llmResponseValid_iff r, ?_⟩
  intro obj k hr hk hnk
  have hvf : llmResponseValid r = false := by
    cases hval : llmResponseValid r with
    | false => rfl
    | true =>
      obtain ⟨obj2, hr2, -, hall⟩ := (llmResponseValid_iff r).mp hval
      rw [hr] at hr2
      obtain rfl : obj = obj2 := Option.some.inj hr2
      exact absurd (hall k hk) hnk
  simp [validate_and_enrich_with_llm, hvf, quarantine_file, setQuarantine, eraseSource, upd]

/-- Witness for C3: a response missing `entities` fails validation, returns
nothing and moves the PDF to quarantine. -/
theorem C3_witness :
    (validate_and_enrich_with_llm (some objMissing) st0 "doc1").1 = none ∧
    (validate_and_enrich_with_llm (some objMissing) st0 "doc1").2.quarantine "doc1" =
      some "LLM response was invalid or missing required keys." ∧
    (validate_and_enrich_with_llm (some objMissing) st0 "doc1").2.source =
      st0.source.erase "doc1" :=
  (C3_enrichment_validation (some objMissing) st0 "doc1").2 objMissing "entities"
    rfl (by decide) (by decide)

/-! ## Normalizer lemmas (table rendering and heading depth) -/

/-- Once the header separator is emitted, the loop appends exactly one
pipe-delimited line per remaining row. -/
theorem tableParts_after_header (rows : List (List String)) :
    ∀ acc : List String, (rows.foldl tableStep (acc, true)).1 =
      acc ++ rows.map
        (fun row => "| " ++ String.intercalate " | " (row.map clean_text) ++ " |") := by
  induction rows with
  | nil => intro acc; simp
  | cons r rs ih =>
    intro acc
    have h1 : tableStep (acc, true) r =
        (acc ++ ["| " ++ String.intercalate " | " (r.map clean_text) ++ " |"], true) := by
      simp [tableStep]
    calc (List.foldl tableStep (acc, true) (r :: rs)).1
        = (List.foldl tableStep (tableStep (acc, true) r) rs).1 := rfl
      _ = _ := by rw [h1, ih]; simp

/-- The rendered table grid: the first row line, the separator row
immediately after it, then one line per remaining row. -/
theorem tableParts_cons (r : List String) (rest : List (List String)) :
    tableParts (r :: rest) =
      ("| " ++ String.intercalate " | " (r.map clean_text) ++ " |") ::
      ("|" ++ String.intercalate "|"
        (List.replicate (r.map clean_text).length "---") ++ "|") ::
      rest.map (fun row => "| " ++ String.intercalate " | " (row.map clean_text) ++ " |") := by
  have h1 : tableStep ([], false) r =
      (["| " ++ String.intercalate " | " (r.map clean_text) ++ " |",
        "|" ++ String.intercalate "|"
          (List.replicate (r.map clean_text).length "---") ++ "|"], true) := by
    simp [tableStep]
  calc tableParts (r :: rest)
      = (List.foldl tableStep (tableStep ([], false) r) rest).1 := rfl
    _ = _ := by rw [h1, tableParts_after_header]; simp

/-- A figure element holding both a table and a caption. -/
def figBoth : Figure :=
  { table := some [["h1", "h2"], ["a", "b"]], figDesc := some "A caption" }

/-- C7 counterexample: a figure holding both a table and a caption emits the
placeholder line although it has a table, so "a placeholder line is emitted
exactly when the figure has a caption but no table" is false. -/
theorem C7_counterexample :
    emitsPlaceholder figBoth ∧ ¬(figBoth.figDesc.isSome = true ∧ figBoth.table = none) := by
  constructor
  · exact ⟨"A caption", rfl, by decide⟩
  · rintro ⟨-, hnone⟩
    simp [figBoth] at hnone

/-- C7 (amended): the contained table is rendered as a grid with one
pipe-delimited line per table row and the separator row immediately after
the first row, and the bracketed image-description placeholder is emitted
exactly when the figure has a caption — also when it contains a table. -/
theorem C7_figure_rendering (fig : Figure) :
    (emitsPlaceholder fig ↔ fig.figDesc.isSome = true) ∧
    (∀ r rest, fig.table = some (r :: rest) →
      table_to_markdown (r :: rest) ∈ figureParts fig ∧
      tableParts (r :: rest) =
        ("| " ++ String.intercalate " | " (r.map clean_text) ++ " |") ::
        ("|" ++ String.intercalate "|"
          (List.replicate (r.map clean_text).length "---") ++ "|") ::
        rest.map
          (fun row => "| " ++ String.intercalate " | " (row.map clean_text) ++ " |")) := by
  constructor
  · constructor
    · rintro ⟨d, hd, -⟩
      simp [hd]
    · intro hs
      obtain ⟨d, hd⟩ := Option.isSome_iff_exists.mp hs
      exact ⟨d, hd, by simp [figureParts, hd, placeholderLine]⟩
  · intro r rest ht
    refine ⟨?_, tableParts_cons r rest⟩
    simp [figureParts, ht]

/-- Witness for C7 at a concrete two-row table with a caption. -/
theorem C7_witness :
    table_to_markdown [["h1", "h2"], ["a", "b"]] ∈ figureParts figBoth ∧
    tableParts [["h1", "h2"], ["a", "b"]] =
      ("| " ++ String.intercalate " | " (["h1", "h2"].map clean_text) ++ " |") ::
      ("|" ++ String.intercalate "|"
        (List.replicate (["h1", "h2"].map clean_text).length "---") ++ "|") ::
      [["a", "b"]].map
        (fun row => "| " ++ String.intercalate " | " (row.map clean_text) ++ " |") :=
  (C7_figure_rendering figBoth).2 ["h1", "h2"] [["a", "b"]] rfl

theorem string_data_append (s t : String) : (s ++ t).data = s.data ++ t.data := rfl

/-- The character list of an emitted heading part. -/
theorem headingPart_data (h : Head) :
    (headingPart h).data =
      '\n' :: (List.replicate (headingLevel h.n) '#' ++
        (' ' :: ((clean_text h.text).data ++ ['\n']))) := by
  have h1 : "\n".data = ['\n'] := rfl
  have h2 : " ".data = [' '] := rfl
  have h3 : ∀ l : List Char, (String.mk l).data = l := fun _ => rfl
  simp [headingPart, string_data_append, h1, h2, h3, List.append_assoc]

/-- Dropping the leading newline of a heading part stops at the marker. -/
theorem dropWhile_newline_hashes (k : Nat) (hk : 0 < k) (tail : List Char) :
    (('\n' :: (List.replicate k '#' ++ tail)).dropWhile (fun c => c = '\n')) =
      List.replicate k '#' ++ tail := by
  cases k with
  | zero => omega
  | succ n => simp [List.replicate_succ, List.dropWhile_cons]

/-- Taking the marker run stops at the space before the heading text. -/
theorem takeWhile_hashes (k : Nat) (tail : List Char) :
    ((List.replicate k '#' ++ ' ' :: tail).takeWhile (fun c => c = '#')) =
      List.replicate k '#' := by
  induction k with
  | zero => simp [List.takeWhile_cons]
  | succ n ih => simp [List.replicate_succ, List.takeWhile_cons, ih]

/-- The visible depth of an emitted heading is exactly the computed level. -/
theorem leadingHashes_headingPart (h : Head) :
    leadingHashes (headingPart h) = headingLevel h.n := by
  have hk : 0 < headingLevel h.n := by
    simp only [headingLevel]
    omega
  rw [leadingHashes, headingPart_data h,
    dropWhile_newline_hashes (headingLevel h.n) hk
      (' ' :: ((clean_text h.text).data ++ ['\n'])),
    takeWhile_hashes]
  exact List.length_replicate (headingLevel h.n) '#'

/-- C8: for every top-level body section with a heading, the emitted heading
depth equals the count of '.' separators in the section's numbering label
plus 2, and a section with no numbering label is emitted at depth 2. -/
theorem C8_heading_depth (h : Head) (es : List DivElem) :
    ∃ p rest, divParts ⟨some h, es⟩ = p :: rest ∧
      (∀ lab, h.n = some lab → leadingHashes p = countDots lab + 2) ∧
      (h.n = none → leadingHashes p = 2) := by
  refine ⟨headingPart h, es.flatMap elemParts, by simp [divParts], ?_, ?_⟩
  · intro lab hlab
    rw [leadingHashes_headingPart, headingLevel, hlab]
    rfl
  · intro hnone
    rw [leadingHashes_headingPart, headingLevel, hnone]
    decide

/-- Witness for C8 at a section numbered "2.1.3" (two separators, depth 4)
and at an unnumbered section (depth 2). -/
theorem C8_witness :
    (∃ p rest, divParts ⟨some ⟨"Introduction", some "2.1.3"⟩, []⟩ = p :: rest ∧
      leadingHashes p = countDots "2.1.3" + 2) ∧
    (∃ p rest, divParts ⟨some ⟨"Conclusion", none⟩, []⟩ = p :: rest ∧
      leadingHashes p = 2) := by
  constructor
  · obtain ⟨p, rest, he, hsome, -⟩ := C8_heading_depth ⟨"Introduction", some "2.1.3"⟩ []
    exact ⟨p, rest, he, hsome "2.1.3" rfl⟩
  · obtain ⟨p, rest, he, -, hnone⟩ := C8_heading_depth ⟨"Conclusion", none⟩ []
    exact ⟨p, rest, he, hnone rfl⟩

end Ingest
